import Mathlib

/-!
Verification development for the crubit repository snapshot.

Part 1 models the pointer-nullability checking engine.  The engine
implementation itself is not present under src/; only its test suite
(src/unnamed/part_000, the PointerNullabilityTest file) is.  The
definitions below are therefore modelled from the specification, with
every point on which the specification and the repository test file
disagree resolved in favour of the test file, since the tests are the
code of the repository that pins the observable behaviour.  Each such
point is recorded in the corresponding doc comment.

Part 2 models FunctionDeclImporter::Import from
src/rs_bindings_from_cc/importers/function.cc, which is present in the
repository, so it is translated directly from that source.
-/

/-- Modelled from the spec: the declared nullability annotation of a
pointer position (spec section 3, NullabilityKind).  The missing source
is the nullability engine (the checker exercised by
src/unnamed/part_000). -/
inductive NullabilityKind where
  | Unspecified
  | Nonnull
  | Nullable
deriving DecidableEq, Repr

/-- Modelled from the spec: the flow-sensitive refinement of a single
pointer position (spec section 3, FlowValue).  The spec names three
values with a single value Top standing both for a pointer whose
annotation is unknown and for a pointer known to be possibly null.  The
repository test file distinguishes these observably: an unannotated
pointer passes a Nonnull return contract and a dereference
(part_000 lines 34-38 and 490-494) while a pointer merged from a
non-null and a null branch is flagged (lines 108-119), so one value
cannot play both roles.  The model therefore splits the spec value Top
into Unknown (annotation unknown, given the benefit of the doubt) and
MaybeNull (nullability known, null not excluded). -/
inductive FlowValue where
  | Unknown
  | MaybeNull
  | DefinitelyNull
  | DefinitelyNonnull
deriving DecidableEq, Repr

/-- Modelled from the spec: the lattice join at control-flow merges
(spec section 4.1).  Equal values join to themselves; two differing
values of known nullability join to MaybeNull; a side of unknown
annotation keeps the merge unknown.  The spec writes the non-equal case
as Top; the split of Top described at FlowValue applies. -/
def join (a b : FlowValue) : FlowValue :=
  if a = b then a
  else if a = FlowValue.Unknown ∨ b = FlowValue.Unknown then FlowValue.Unknown
  else FlowValue.MaybeNull

/-- Modelled from the spec: satisfiesNonnull (spec section 4.1), true
iff the value is DefinitelyNonnull. -/
def satisfiesNonnull (v : FlowValue) : Bool :=
  match v with
  | FlowValue.DefinitelyNonnull => true
  | _ => false

/-- Modelled from the test file: the condition under which the checker
flags a pointer use that requires non-nullness.  The spec says any
value other than DefinitelyNonnull is rejected, but the test file gives
unannotated pointers the benefit of the doubt (part_000 lines 34-38,
490-494, 396): only a value whose nullability is known and not proven
non-null is flagged. -/
def mayBeNull (v : FlowValue) : Bool :=
  match v with
  | FlowValue.MaybeNull => true
  | FlowValue.DefinitelyNull => true
  | _ => false

theorem satisfiesNonnull_no_flag (v : FlowValue) :
    satisfiesNonnull v = true → mayBeNull v = false := by
  cases v <;> simp [satisfiesNonnull, mayBeNull]

/-- Modelled from the spec: the pointer value environment
(spec section 4.3), a mapping from tracked storage locations (named by
strings here) to flow values. -/
def Env : Type := String → FlowValue

/-- Updates one tracked location. -/
def Env.set (env : Env) (x : String) (v : FlowValue) : Env :=
  fun y => if y = x then v else env y

/-- Modelled from the spec: pointwise join of two environments
(spec section 4.3, joinInto). -/
def joinEnv (e1 e2 : Env) : Env :=
  fun x => join (e1 x) (e2 x)

/-- Join of two optional environments; none stands for an unreachable
edge (all paths through that branch returned), which contributes
nothing to the merge. -/
def joinOptEnv : Option Env → Option Env → Option Env
  | none, r => r
  | some e1, none => some e1
  | some e1, some e2 => some (joinEnv e1 e2)

/-- Modelled from the spec: the entry environment seeded from the
declared parameter kinds (spec section 3, Lifecycle).  A Nonnull
parameter starts DefinitelyNonnull.  The spec starts both Nullable and
Unspecified parameters at Top; the test file flags a returned Nullable
parameter under a Nonnull return contract (part_000 lines 29-33) but
not an Unspecified one (lines 34-38), so a Nullable parameter starts
at MaybeNull and an Unspecified one at Unknown. -/
def initEnv (ps : List (String × NullabilityKind)) : Env :=
  fun x =>
    match ps.lookup x with
    | some NullabilityKind.Nonnull => FlowValue.DefinitelyNonnull
    | some NullabilityKind.Nullable => FlowValue.MaybeNull
    | _ => FlowValue.Unknown

/-- Modelled from the spec: the pointer-valued expressions the transfer
rules of spec section 4.4 cover: the null literal, address-of, a read
of a tracked location, and a parenthesized expression. -/
inductive PExpr where
  | null
  | addrOf (x : String)
  | var (x : String)
  | paren (e : PExpr)

/-- Modelled from the spec: the value transfer rules of spec
section 4.4.  A null literal is DefinitelyNull, an address is
DefinitelyNonnull, a variable reads the environment, parentheses are
transparent. -/
def evalP (env : Env) : PExpr → FlowValue
  | PExpr.null => FlowValue.DefinitelyNull
  | PExpr.addrOf _ => FlowValue.DefinitelyNonnull
  | PExpr.var x => env x
  | PExpr.paren e => evalP env e

/-- The dereference-class operators of spec section 4.4: unary star,
arrow member access, pre and post increment and decrement, unary plus.
All obey the same non-nullness requirement on the operand. -/
inductive DerefOp where
  | star
  | arrow
  | preInc
  | postInc
  | preDec
  | postDec
  | unaryPlus

/-- Branch conditions: a truth test of a tracked pointer, or a boolean
the analysis knows nothing about (both branches feasible, no pointer
refined). -/
inductive Cond where
  | ptrNonNull (x : String)
  | unknownBool

/-- Statements of the modelled fragment.  Flag locations are plain
naturals tagging the potential diagnostic site. -/
inductive Stmt where
  | skip
  | assign (x : String) (e : PExpr)
  | deref (op : DerefOp) (e : PExpr) (loc : Nat)
  | ret (e : PExpr) (loc : Nat)
  | seq (s1 s2 : Stmt)
  | ifElse (c : Cond) (s1 s2 : Stmt)

/-- Modelled from the spec: narrowing on a truth test
(spec section 4.1): on the true edge the tested pointer becomes
DefinitelyNonnull, on the false edge DefinitelyNull; an unknown boolean
refines nothing. -/
def condRefine (env : Env) : Cond → Env × Env
  | Cond.ptrNonNull x =>
      (Env.set env x FlowValue.DefinitelyNonnull,
       Env.set env x FlowValue.DefinitelyNull)
  | Cond.unknownBool => (env, env)

/-- Modelled from the test file: the return-statement contract
(spec section 4.4).  Under a Nonnull declared return kind a returned
value is flagged iff its nullability is known and null is not excluded
(mayBeNull); Nullable and Unspecified return kinds accept anything.
The spec requires satisfiesNonnull instead, but the test file accepts a
returned unannotated pointer under a Nonnull return kind
(part_000 lines 34-38). -/
def retFlag (k : NullabilityKind) (v : FlowValue) : Bool :=
  match k with
  | NullabilityKind.Nonnull => mayBeNull v
  | _ => false

/-- Modelled from the spec and the test file: the flow-sensitive
checker over one statement.  Returns the environment after the
statement (none when every path returned) and the list of flagged
locations in program order.  Dereference-class operators flag when the
operand mayBeNull (see mayBeNull for the divergence from the spec);
branches are checked under the refined environments and merged with
joinOptEnv. -/
def check (k : NullabilityKind) (env : Env) : Stmt → Option Env × List Nat
  | Stmt.skip => (some env, [])
  | Stmt.assign x e => (some (Env.set env x (evalP env e)), [])
  | Stmt.deref _ e loc =>
      (some env, if mayBeNull (evalP env e) then [loc] else [])
  | Stmt.ret e loc =>
      (none, if retFlag k (evalP env e) then [loc] else [])
  | Stmt.seq s1 s2 =>
      match check k env s1 with
      | (none, f1) => (none, f1)
      | (some env1, f1) =>
          match check k env1 s2 with
          | (r2, f2) => (r2, f1 ++ f2)
  | Stmt.ifElse c s1 s2 =>
      match condRefine env c with
      | (envT, envF) =>
          match check k envT s1, check k envF s2 with
          | (r1, f1), (r2, f2) => (joinOptEnv r1 r2, f1 ++ f2)

/-! ### Type nullability signatures (spec sections 3 and 4.2) -/

mutual
/-- Modelled from the spec: the static types the structural signature
rule of spec section 3 covers: non-pointer scalars, annotated pointers,
generic template instantiations with ordered type and non-type
arguments, concrete (non-template) classes with named data members, and
transparent cv-qualified references. -/
inductive CType where
  | scalar
  | ptr (k : NullabilityKind) (pointee : CType)
  | generic (name : String) (args : TArgs)
  | concrete (name : String) (fields : Fields)
  | constRef (t : CType)

/-- The ordered template argument list of a generic instantiation; a
consValue entry is a non-type template argument. -/
inductive TArgs where
  | nil
  | consType (t : CType) (rest : TArgs)
  | consValue (n : Int) (rest : TArgs)

/-- The named data members of a concrete class. -/
inductive Fields where
  | nil
  | cons (name : String) (t : CType) (rest : Fields)
end

mutual
/-- Modelled from the spec: the structural nullability signature of a
type (spec section 3): a pointer contributes its declared kind followed
by the signature of its pointee; a generic instantiation flattens its
arguments in declared order; a concrete class or scalar contributes
nothing (members are not unfolded); cv-qualified references are
transparent. -/
def signatureOf : CType → List NullabilityKind
  | CType.scalar => []
  | CType.ptr k u => k :: signatureOf u
  | CType.generic _ args => sigArgs args
  | CType.concrete _ _ => []
  | CType.constRef t => signatureOf t

/-- Flattening of a template argument list: type arguments contribute
their signatures in order, non-type arguments contribute nothing. -/
def sigArgs : TArgs → List NullabilityKind
  | TArgs.nil => []
  | TArgs.consType t rest => signatureOf t ++ sigArgs rest
  | TArgs.consValue _ rest => sigArgs rest
end

/-- Builds a template argument list from a plain list of type
arguments. -/
def targsOfTypes : List CType → TArgs
  | [] => TArgs.nil
  | t :: ts => TArgs.consType t (targsOfTypes ts)

theorem sigArgs_targsOfTypes (ts : List CType) :
    sigArgs (targsOfTypes ts) = (ts.map signatureOf).flatten := by
  induction ts with
  | nil => rfl
  | cons t ts ih => simp [targsOfTypes, sigArgs, ih]

/-- Modelled from the test file: the expressions the assertNullability
directive is applied to.  A var is any read whose nullability vector is
the signature of its static type (a local, member access or call
result); address-of and dereference adjust the vector structurally
(part_000 lines 390-398). -/
inductive TExpr where
  | var (t : CType)
  | addrOf (e : TExpr)
  | deref (e : TExpr)
  | paren (e : TExpr)

/-- The static type of an expression.  An address-of expression has
plain (unannotated) pointer type; a dereference strips one pointer
level. -/
def staticTypeOf : TExpr → CType
  | TExpr.var t => t
  | TExpr.addrOf e => CType.ptr NullabilityKind.Unspecified (staticTypeOf e)
  | TExpr.deref e =>
      match staticTypeOf e with
      | CType.ptr _ u => u
      | t => t
  | TExpr.paren e => staticTypeOf e

/-- Modelled from the test file: the nullability vector of an
expression.  For a plain read it is the signature of the static type;
an address-of expression prepends Nonnull, because an address is never
null (part_000 line 392 expects NK_nonnull in the first position for
the address of a local); a dereference drops the head entry;
parentheses are transparent. -/
def exprVector : TExpr → List NullabilityKind
  | TExpr.var t => signatureOf t
  | TExpr.addrOf e => NullabilityKind.Nonnull :: exprVector e
  | TExpr.deref e => (exprVector e).tail
  | TExpr.paren e => exprVector e

/-- Modelled from the spec: the assertNullability pseudo-call
(spec section 6): compares a literal kind list against the nullability
vector of the expression and passes (true) iff they agree exactly.  It
consults no flow-refined state. -/
def assertNullability (ks : List NullabilityKind) (e : TExpr) : Bool :=
  decide (ks = exprVector e)

/-! ### The bindings importer, from
src/rs_bindings_from_cc/importers/function.cc -/

/-- Access specifier of a C++ method, as in clang. -/
inductive AccessSpecifier where
  | AS_public
  | AS_protected
  | AS_private
  | AS_none
deriving DecidableEq, Repr

/-- Result of TypeMapper::ConvertQualType: either a converted type
(kept abstract as its rendered name) or an error message. -/
inductive ConvResult where
  | ok (rs_type : String)
  | err (message : String)
deriving DecidableEq, Repr

/-- The method-specific inputs of FunctionDeclImporter::Import
(function.cc lines 30-53 and 148-191): whether the parent record is
contained in the type mapper, whether the method is an instance method,
the conversion of the this-parameter type, and the access specifier.
The reference qualifier, constness and similar metadata read from the
declaration do not influence which item is produced and are left
out. -/
structure MethodInfo where
  parent_in_type_mapper : Bool
  is_instance : Bool
  this_param_type : ConvResult
  access : AccessSpecifier
deriving DecidableEq, Repr

/-- One parameter of the imported function declaration: the result of
converting its type, its rendered type name (used in error messages),
whether its type is a record and whether that record can be passed in
registers, and the translated identifier (none models a failed
GetTranslatedIdentifier, which the source treats as a CRUBIT_CHECK
violation). -/
structure ParamInfo where
  type_conv : ConvResult
  type_string : String
  is_record : Bool
  can_pass_in_registers : Bool
  name : Option String
deriving DecidableEq, Repr

/-- The inputs of FunctionDeclImporter::Import for one function
declaration.  Fields mirror the queries the source makes of the clang
declaration and the importer context, in source order.
return_type_undeduced models a return type that stays undeduced even
after Sema::DeduceReturnType.  Metadata that is merely copied into the
produced Func (mangled name, doc comment, calling convention, source
location, ids) is left out because it influences no imported-or-not
decision. -/
structure FunctionDecl where
  is_from_current_target : Bool
  is_deleted : Bool
  method : Option MethodInfo
  lifetimes_ok : Bool
  lifetimes_valid_for_decl : Bool
  free_lifetimes_named : Bool
  params : List ParamInfo
  return_type_undeduced : Bool
  return_is_record : Bool
  return_can_pass_in_registers : Bool
  return_type_string : String
  return_type_conv : ConvResult
  translated_name : Option String
deriving DecidableEq, Repr

/-- The IR items Import can produce: a function item (carrying the
translated name, converted return type and converted parameters), or an
unsupported item carrying the accumulated error messages. -/
inductive Item where
  | func (name : String) (return_type : String)
      (params : List (String × String))
  | unsupported (errors : List String)
deriving DecidableEq, Repr

/-- Lexicographic comparison of character lists, the order of
std::string. -/
def charListLt : List Char → List Char → Bool
  | [], [] => false
  | [], _ :: _ => true
  | _ :: _, [] => false
  | a :: as, b :: bs =>
      if a < b then true else if b < a then false else charListLt as bs

/-- Lexicographic string comparison, the order the std::set of error
messages is kept in. -/
def strLt (a b : String) : Bool := charListLt a.data b.data

/-- Ordered insertion into the std::set of error messages (function.cc
line 25 declares errors as a std::set of strings, which iterates in
sorted order).  Callers check membership first, so the element is
absent. -/
def setInsert (errors : List String) (msg : String) : List String :=
  match errors with
  | [] => [msg]
  | e :: rest => if strLt msg e then msg :: e :: rest else e :: setInsert rest msg

/-- The add_error lambda of function.cc lines 26-29: inserts the
message into the error set and CRUBIT_CHECKs that it was not already
present.  A CRUBIT_CHECK failure is modelled as Except.error. -/
def add_error (errors : List String) (msg : String) :
    Except String (List String) :=
  if msg ∈ errors then
    Except.error ("CRUBIT_CHECK failed: Duplicated error message")
  else Except.ok (setInsert errors msg)

/-- The message of function.cc line 68; the source builds it with
absl::Substitute as Parameter number, colon, nested message. -/
def paramErrMsg (i : Nat) (msg : String) : String :=
  "Parameter #" ++ toString i ++ " is not supported: " ++ msg

/-- The message of function.cc lines 81-84.  The source wraps the type
name in single quotation marks; they are left out here. -/
def nonTrivialParamMsg (type_string : String) (i : Nat) : String :=
  "Non-trivial_abi type " ++ type_string ++
    " is not supported by value as parameter #" ++ toString i

/-- The message of function.cc line 126. -/
def returnErrMsg (msg : String) : String :=
  "Return type is not supported: " ++ msg

/-- The message of function.cc lines 110-113.  The source wraps the
type name in single quotation marks; they are left out here. -/
def nonTrivialReturnMsg (type_string : String) : String :=
  "Non-trivial_abi type " ++ type_string ++
    " is not supported by value as a return type"

/-- The message of function.cc line 47; the source prefixes it with the
this token in backquotes. -/
def thisErrMsg (msg : String) : String :=
  "`this` parameter is not supported: " ++ msg

/-- The message of function.cc line 98.  The source spells the first
word with a contraction. -/
def cannotDeduceMsg : String := "Could not deduce the return type"

/-- The message of function.cc line 34.  The source spells the first
word with a contraction. -/
def cannotImportParentMsg : String := "Could not import the parent"

/-- The parameter loop of function.cc lines 59-92: for each parameter
in order, a failed type conversion records an error and skips the
parameter; a successful one additionally records an error when the type
is a non-trivial-abi record passed by value, CRUBIT_CHECKs that the
translated identifier exists, and appends the converted parameter. -/
def processParams (i : Nat) (errors : List String)
    (acc : List (String × String)) :
    List ParamInfo → Except String (List String × List (String × String))
  | [] => Except.ok (errors, acc)
  | p :: rest =>
    match p.type_conv with
    | ConvResult.err msg =>
        match add_error errors (paramErrMsg i msg) with
        | Except.error e => Except.error e
        | Except.ok errors2 => processParams (i + 1) errors2 acc rest
    | ConvResult.ok t =>
        match (if p.is_record && !p.can_pass_in_registers then
                 add_error errors (nonTrivialParamMsg p.type_string i)
               else Except.ok errors) with
        | Except.error e => Except.error e
        | Except.ok errors2 =>
            match p.name with
            | none => Except.error ("CRUBIT_CHECK failed: param_name.has_value()")
            | some n => processParams (i + 1) errors2 (acc ++ [(t, n)]) rest

/-- The return-type checks of function.cc lines 94-128: an undeducible
return type, a non-trivial-abi record returned by value, and a failed
return type conversion each record an error. -/
def returnTypeErrors (d : FunctionDecl) (errors : List String) :
    Except String (List String) :=
  match (if d.return_type_undeduced then add_error errors cannotDeduceMsg
         else Except.ok errors) with
  | Except.error e => Except.error e
  | Except.ok e1 =>
    match (if d.return_is_record && !d.return_can_pass_in_registers then
             add_error e1 (nonTrivialReturnMsg d.return_type_string)
           else Except.ok e1) with
    | Except.error e => Except.error e
    | Except.ok e2 =>
      match d.return_type_conv with
      | ConvResult.err msg => add_error e2 (returnErrMsg msg)
      | ConvResult.ok _ => Except.ok e2

/-- The this-parameter handling of function.cc lines 38-52: an instance
method converts its this type; failure records an error, success
prepends the this parameter. -/
def thisParamStep (m : MethodInfo) :
    Except String (List String × List (String × String)) :=
  if m.is_instance then
    match m.this_param_type with
    | ConvResult.err msg =>
        match add_error [] (thisErrMsg msg) with
        | Except.error e => Except.error e
        | Except.ok errs => Except.ok (errs, [])
    | ConvResult.ok t => Except.ok ([], [(t, "__this")])
  else Except.ok ([], [])

/-- The tail of Import after the access check, function.cc
lines 193-251: with errors present the declaration becomes an
unsupported item; otherwise the source CRUBIT_CHECKs that the return
conversion succeeded and produces a Func when the translated name
exists, or nullopt when it does not. -/
def finishAfterAccess (d : FunctionDecl) (errors : List String)
    (params : List (String × String)) : Except String (Option Item) :=
  if errors.isEmpty then
    match d.return_type_conv with
    | ConvResult.err _ => Except.error ("CRUBIT_CHECK failed: return_type.ok()")
    | ConvResult.ok rt =>
      match d.translated_name with
      | some n => Except.ok (some (Item.func n rt params))
      | none => Except.ok none
  else Except.ok (some (Item.unsupported errors))

/-- The member-function metadata step of function.cc lines 148-160:
before the error check, a method whose access is protected, private or
none makes Import return nullopt. -/
def finishImport (d : FunctionDecl) (errors : List String)
    (params : List (String × String)) : Except String (Option Item) :=
  match d.method with
  | some m =>
    match m.access with
    | AccessSpecifier.AS_public => finishAfterAccess d errors params
    | _ => Except.ok none
  | none => finishAfterAccess d errors params

/-- The body of Import after the early returns and the this-parameter
handling, in source order: the lifetime-validity CRUBIT_CHECK of
line 56, the parameter loop, the return-type checks, the lifetime-name
CRUBIT_CHECK of line 139, then the access check and the error check.
errors0 and params0 carry what the this-parameter handling
accumulated. -/
def importBody (d : FunctionDecl) (errors0 : List String)
    (params0 : List (String × String)) : Except String (Option Item) :=
  if d.lifetimes_ok && !d.lifetimes_valid_for_decl then
    Except.error ("CRUBIT_CHECK failed: lifetimes IsValidForDecl")
  else
    match processParams 0 errors0 params0 d.params with
    | Except.error e => Except.error e
    | Except.ok (errors1, params1) =>
      match returnTypeErrors d errors1 with
      | Except.error e => Except.error e
      | Except.ok errors2 =>
        if d.lifetimes_ok && !d.free_lifetimes_named then
          Except.error ("CRUBIT_CHECK failed: lifetime name lookup")
        else finishImport d errors2 params1

/-- FunctionDeclImporter::Import, function.cc lines 13-252.  Returns
Except.error on a CRUBIT_CHECK violation, otherwise the optional
imported item: declarations from other targets and deleted functions
yield nullopt immediately; a method whose parent is not in the type
mapper yields an unsupported item immediately; the rest runs
importBody. -/
def Import (d : FunctionDecl) : Except String (Option Item) :=
  if !d.is_from_current_target then Except.ok none
  else if d.is_deleted then Except.ok none
  else
    match d.method with
    | some m =>
      if !m.parent_in_type_mapper then
        Except.ok (some (Item.unsupported [cannotImportParentMsg]))
      else
        match thisParamStep m with
        | Except.error e => Except.error e
        | Except.ok (errors0, params0) => importBody d errors0 params0
    | none => importBody d [] []

/-! ### Concrete programs from the test file -/

/-- The ReturnStatements case of part_000 lines 89-97: a Nonnull
function of a Nullable and a Nonnull parameter returning the Nullable
one inside its own truth test, the Nonnull one otherwise. -/
def prog_89_97 : Stmt :=
  Stmt.seq
    (Stmt.ifElse (Cond.ptrNonNull ("ptr_nullable"))
      (Stmt.ret (PExpr.var ("ptr_nullable")) 1) Stmt.skip)
    (Stmt.ret (PExpr.var ("ptr_nonnull")) 2)

/-- The ReturnStatements case of part_000 lines 98-106: a Nonnull
function of two Nullable parameters; inside the truth test of the first
it returns the second, after the test it returns the first. -/
def prog_98_106 : Stmt :=
  Stmt.seq
    (Stmt.ifElse (Cond.ptrNonNull ("ptr_nullable_1"))
      (Stmt.ret (PExpr.var ("ptr_nullable_2")) 1) Stmt.skip)
    (Stmt.ret (PExpr.var ("ptr_nullable_1")) 2)

/-- The ReturnStatements case of part_000 lines 108-119: a local
assigned an address on one branch and nullptr on the other, then
returned under a Nonnull return kind. -/
def prog_109_119 : Stmt :=
  Stmt.seq
    (Stmt.ifElse Cond.unknownBool
      (Stmt.assign ("ptr") (PExpr.addrOf ("i")))
      (Stmt.assign ("ptr") PExpr.null))
    (Stmt.ret (PExpr.var ("ptr")) 0)

/-- The ReturnStatements case of part_000 lines 81-88: an early return
of nullptr under an unknown boolean, then a return of a Nonnull
parameter. -/
def prog_81_88 : Stmt :=
  Stmt.seq
    (Stmt.ifElse Cond.unknownBool (Stmt.ret PExpr.null 1) Stmt.skip)
    (Stmt.ret (PExpr.var ("ptr_nonnull")) 2)

/-! Validation of the model against the expected diagnostics of the
ReturnStatements test (part_000 lines 17-120).  The unsafe markers of
the test are reproduced exactly. -/

theorem validate_return_nonnull_of_nullptr :
    (check NullabilityKind.Nonnull (initEnv [])
      (Stmt.ret PExpr.null 0)).2 = [0] := by decide

theorem validate_return_nonnull_of_nonnull :
    (check NullabilityKind.Nonnull
      (initEnv [(("ptr_nonnull"), NullabilityKind.Nonnull)])
      (Stmt.ret (PExpr.var ("ptr_nonnull")) 0)).2 = [] := by decide

theorem validate_return_nonnull_of_nullable :
    (check NullabilityKind.Nonnull
      (initEnv [(("ptr_nullable"), NullabilityKind.Nullable)])
      (Stmt.ret (PExpr.var ("ptr_nullable")) 0)).2 = [0] := by decide

theorem validate_return_nullable_kinds :
    (check NullabilityKind.Nullable (initEnv [])
      (Stmt.ret PExpr.null 0)).2 = [] ∧
    (check NullabilityKind.Unspecified (initEnv [])
      (Stmt.ret PExpr.null 0)).2 = [] := by decide

theorem validate_return_multiple :
    (check NullabilityKind.Nonnull
      (initEnv [(("ptr_nonnull"), NullabilityKind.Nonnull)])
      prog_81_88).2 = [1] := by decide

/-! ### Claim C1 -/

/-- Claim C1, corrected.  For every dereference-class operator applied
to a pointer expression, the checker flags the operator location iff
the operand flow value is DefinitelyNull or MaybeNull; in particular a
pointer of declared kind Nullable, never narrowed, is always flagged at
a dereference site.  (The claim as stated, by which every value other
than DefinitelyNonnull is flagged and in particular Unspecified
pointers always are, fails on the code: see the counterexample.) -/
theorem claim_C1 (op : DerefOp) (k : NullabilityKind) (env : Env)
    (e : PExpr) (loc : Nat) :
    ((check k env (Stmt.deref op e loc)).2 = [loc] ↔
      (evalP env e = FlowValue.DefinitelyNull ∨
       evalP env e = FlowValue.MaybeNull)) ∧
    (∀ (ps : List (String × NullabilityKind)) (x : String),
      ps.lookup x = some NullabilityKind.Nullable →
      (check k (initEnv ps) (Stmt.deref op (PExpr.var x) loc)).2 = [loc]) := by
  constructor
  · simp only [check]
    rcases h : evalP env e <;> simp [mayBeNull]
  · intro ps x hx
    simp [check, evalP, initEnv, hx, mayBeNull]

/-- Witness for claim C1 at the Deref test of part_000 line 641: the
star operator on a Nullable parameter is flagged. -/
theorem claim_C1_witness :
    (check NullabilityKind.Unspecified
      (initEnv [(("p"), NullabilityKind.Nullable)])
      (Stmt.deref DerefOp.star (PExpr.var ("p")) 0)).2 = [0] :=
  (claim_C1 DerefOp.star NullabilityKind.Unspecified
      (initEnv [(("p"), NullabilityKind.Nullable)])
      (PExpr.var ("p")) 0).2
    [(("p"), NullabilityKind.Nullable)] ("p") (by decide)

/-- Counterexample to claim C1 as stated: part_000 lines 490-494
dereference a pointer of declared kind Unspecified (an unannotated
local bound to makeUnannotated) with no unsafe marker, so the checker
does not flag a dereference of a Top-valued Unspecified pointer. -/
theorem claim_C1_counterexample :
    (check NullabilityKind.Unspecified
      (initEnv [(("p"), NullabilityKind.Unspecified)])
      (Stmt.deref DerefOp.star (PExpr.var ("p")) 0)).2 = [] := by decide

/-! ### Claim C2 -/

/-- Claim C2, corrected.  Under a Nonnull declared return kind a return
is flagged iff the returned value is DefinitelyNull or MaybeNull (an
Unknown value from an unannotated source passes); under a Nullable or
Unspecified return kind no return is ever flagged; returning nullptr
under a Nonnull return kind is flagged. -/
theorem claim_C2 (env : Env) (e : PExpr) (loc : Nat) :
    ((check NullabilityKind.Nonnull env (Stmt.ret e loc)).2 = [loc] ↔
      (evalP env e = FlowValue.DefinitelyNull ∨
       evalP env e = FlowValue.MaybeNull)) ∧
    (∀ k : NullabilityKind, k ≠ NullabilityKind.Nonnull →
      (check k env (Stmt.ret e loc)).2 = []) ∧
    (check NullabilityKind.Nonnull env (Stmt.ret PExpr.null loc)).2 = [loc] := by
  refine ⟨?_, ?_, ?_⟩
  · simp only [check, retFlag]
    rcases h : evalP env e <;> simp [mayBeNull]
  · intro k hk
    rcases k <;> simp [check, retFlag] at hk ⊢
  · simp [check, retFlag, evalP, mayBeNull]

/-- Witness for claim C2: the iff direction at a Nullable parameter
(part_000 lines 29-33) and the unconditional pass of a Nullable return
kind (lines 49-53). -/
theorem claim_C2_witness :
    (check NullabilityKind.Nonnull
      (initEnv [(("ptr_nullable"), NullabilityKind.Nullable)])
      (Stmt.ret (PExpr.var ("ptr_nullable")) 0)).2 = [0] ∧
    (check NullabilityKind.Nullable
      (initEnv [(("ptr_nullable"), NullabilityKind.Nullable)])
      (Stmt.ret (PExpr.var ("ptr_nullable")) 0)).2 = [] :=
  ⟨(claim_C2 (initEnv [(("ptr_nullable"), NullabilityKind.Nullable)])
      (PExpr.var ("ptr_nullable")) 0).1.mpr (Or.inr (by decide)),
   (claim_C2 (initEnv [(("ptr_nullable"), NullabilityKind.Nullable)])
      (PExpr.var ("ptr_nullable")) 0).2.1 NullabilityKind.Nullable
      (by decide)⟩

/-- Counterexample to claim C2 as stated: part_000 lines 34-38 return
an unannotated parameter from a function of Nonnull return kind with no
unsafe marker, although the value of that parameter does not satisfy
satisfiesNonnull; the code does not flag it. -/
theorem claim_C2_counterexample :
    (check NullabilityKind.Nonnull
      (initEnv [(("ptr_unannotated"), NullabilityKind.Unspecified)])
      (Stmt.ret (PExpr.var ("ptr_unannotated")) 0)).2 = [] ∧
    satisfiesNonnull
      (initEnv [(("ptr_unannotated"), NullabilityKind.Unspecified)]
        ("ptr_unannotated")) = false := by decide

/-! ### Claim C6 -/

/-- Claim C6, confirmed.  On the true edge of a truth test of a pointer
the pointer is refined to DefinitelyNonnull, so a guarded return of a
Nullable pointer under a Nonnull return contract contributes no flag
and the continuation is checked only under the other edge, where the
pointer is DefinitelyNull; after a truth test whose branches do not
touch the pointer, the merged value is MaybeNull, not
DefinitelyNonnull, so the refinement does not leak past the merge.  The
concrete conjuncts are the ReturnStatements cases of part_000
lines 89-97 (no flag) and lines 98-106 (both returns flagged). -/
theorem claim_C6 :
    (∀ (env : Env) (x : String) (l1 : Nat) (s2 : Stmt),
      check NullabilityKind.Nonnull env
        (Stmt.seq
          (Stmt.ifElse (Cond.ptrNonNull x)
            (Stmt.ret (PExpr.var x) l1) Stmt.skip) s2) =
      check NullabilityKind.Nonnull
        (Env.set env x FlowValue.DefinitelyNull) s2) ∧
    (∀ (k : NullabilityKind) (env : Env) (x : String),
      ((check k env
          (Stmt.ifElse (Cond.ptrNonNull x) Stmt.skip Stmt.skip)).1.map
        (fun r => r x)) = some FlowValue.MaybeNull) ∧
    (check NullabilityKind.Nonnull
      (initEnv [(("ptr_nullable"), NullabilityKind.Nullable),
                (("ptr_nonnull"), NullabilityKind.Nonnull)])
      prog_89_97).2 = [] ∧
    (check NullabilityKind.Nonnull
      (initEnv [(("ptr_nullable_1"), NullabilityKind.Nullable),
                (("ptr_nullable_2"), NullabilityKind.Nullable)])
      prog_98_106).2 = [1, 2] := by
  refine ⟨?_, ?_, by decide, by decide⟩
  · intro env x l1 s2
    have hx : Env.set env x FlowValue.DefinitelyNonnull x =
        FlowValue.DefinitelyNonnull := by simp [Env.set]
    rcases hc : check NullabilityKind.Nonnull
        (Env.set env x FlowValue.DefinitelyNull) s2 with ⟨r2, f2⟩
    simp [check, condRefine, evalP, hx, retFlag, mayBeNull, joinOptEnv, hc]
  · intro k env x
    have hT : Env.set env x FlowValue.DefinitelyNonnull x =
        FlowValue.DefinitelyNonnull := by simp [Env.set]
    have hF : Env.set env x FlowValue.DefinitelyNull x =
        FlowValue.DefinitelyNull := by simp [Env.set]
    simp [check, condRefine, joinOptEnv, joinEnv, hT, hF, join]

/-! ### Claim C7 -/

/-- Claim C7, corrected.  The join is commutative and idempotent, and
joining DefinitelyNonnull with DefinitelyNull yields the known
possibly-null value MaybeNull, which fails a Nonnull return contract:
the merge program of part_000 lines 108-119 is flagged at its return.
(The claim as stated equates the join with Top, the value of
unannotated never-narrowed pointers, which the code treats
differently: see the counterexample.) -/
theorem claim_C7 :
    (∀ a b : FlowValue, join a b = join b a) ∧
    (∀ a : FlowValue, join a a = a) ∧
    join FlowValue.DefinitelyNonnull FlowValue.DefinitelyNull =
      FlowValue.MaybeNull ∧
    retFlag NullabilityKind.Nonnull
      (join FlowValue.DefinitelyNonnull FlowValue.DefinitelyNull) = true ∧
    (check NullabilityKind.Nonnull (initEnv []) prog_109_119).2 = [0] := by
  refine ⟨?_, ?_, by decide, by decide, by decide⟩
  · intro a b
    rcases a <;> rcases b <;> rfl
  · intro a
    rcases a <;> rfl

/-- Counterexample to claim C7 as stated: the join of DefinitelyNonnull
and DefinitelyNull is not the value Top taken by an unannotated,
never-narrowed pointer, and the two behave differently: the joined
value fails a Nonnull return contract (part_000 lines 108-119, flagged)
while the unannotated value passes it (lines 34-38, not flagged). -/
theorem claim_C7_counterexample :
    join FlowValue.DefinitelyNonnull FlowValue.DefinitelyNull ≠
      initEnv [(("r"), NullabilityKind.Unspecified)] ("r") ∧
    retFlag NullabilityKind.Nonnull
      (join FlowValue.DefinitelyNonnull FlowValue.DefinitelyNull) = true ∧
    retFlag NullabilityKind.Nonnull
      (initEnv [(("r"), NullabilityKind.Unspecified)] ("r")) = false := by
  decide

/-! ### Claim C3 -/

/-- An unannotated pointer to int. -/
def ptrU : CType := CType.ptr NullabilityKind.Unspecified CType.scalar

/-- A Nullable pointer to int. -/
def ptrNb : CType := CType.ptr NullabilityKind.Nullable CType.scalar

/-- A Nonnull pointer to int. -/
def ptrNN : CType := CType.ptr NullabilityKind.Nonnull CType.scalar

/-- A two-type-argument template instantiation, as Struct2Arg of the
test file. -/
def s2 (a b : CType) : CType :=
  CType.generic ("Struct2Arg") (targsOfTypes [a, b])

/-- The expression of spec section 8 scenario 4: a read of type
Template of an unannotated and a Nullable int pointer (the Struct2Arg
case of part_000 lines 238-257). -/
def c3_template_expr : TExpr := TExpr.var (s2 ptrU ptrNb)

/-- The address-of expression of part_000 line 392: the address of a
local of Nullable pointer type. -/
def c3_addr_expr : TExpr := TExpr.addrOf (TExpr.var ptrNb)

/-- Claim C3, corrected.  The assertNullability pseudo-call passes iff
the literal kind list agrees with the nullability vector of the
expression in length and in every element (order matters), and flags
otherwise; for a plain read the vector is exactly
signatureOf(staticTypeOf(e)).  Only declared, structural information is
consulted, never a flow-refined value.  (As stated, with the compared
vector being signatureOf(staticTypeOf(e)) for every expression, the
claim fails on address-of expressions: see the counterexample.)  The
closed conjuncts are spec section 8 scenario 4: the matching list
passes and the reordered list is flagged. -/
theorem claim_C3 (ks : List NullabilityKind) (e : TExpr) :
    (assertNullability ks e = false ↔
      ¬(ks.length = (exprVector e).length ∧
        ∀ (i : Nat) (h1 : i < ks.length) (h2 : i < (exprVector e).length),
          ks.get ⟨i, h1⟩ = (exprVector e).get ⟨i, h2⟩)) ∧
    (∀ t : CType, exprVector (TExpr.var t) = signatureOf t) ∧
    assertNullability
      [NullabilityKind.Unspecified, NullabilityKind.Nullable]
      c3_template_expr = true ∧
    assertNullability
      [NullabilityKind.Nullable, NullabilityKind.Unspecified]
      c3_template_expr = false := by
  refine ⟨?_, fun t => rfl, by decide, by decide⟩
  simp only [assertNullability, decide_eq_false_iff_not]
  exact not_congr List.ext_get_iff

/-- Witness for claim C3: the flagged reordered list of spec section 8
scenario 4 differs from the vector elementwise. -/
theorem claim_C3_witness :
    ¬([NullabilityKind.Nullable, NullabilityKind.Unspecified].length =
        (exprVector c3_template_expr).length ∧
      ∀ (i : Nat)
        (h1 : i < [NullabilityKind.Nullable,
                   NullabilityKind.Unspecified].length)
        (h2 : i < (exprVector c3_template_expr).length),
        [NullabilityKind.Nullable, NullabilityKind.Unspecified].get ⟨i, h1⟩ =
          (exprVector c3_template_expr).get ⟨i, h2⟩) :=
  (claim_C3 [NullabilityKind.Nullable, NullabilityKind.Unspecified]
      c3_template_expr).1.mp (by decide)

/-- Counterexample to claim C3 as stated: part_000 line 392 asserts
NK_nonnull then NK_nullable on the address of a Nullable local and
passes, although the static type of that address-of expression is an
unannotated pointer to Nullable pointer, whose signature starts with
Unspecified; the compared vector is therefore not
signatureOf(staticTypeOf(e)). -/
theorem claim_C3_counterexample :
    assertNullability
      [NullabilityKind.Nonnull, NullabilityKind.Nullable]
      c3_addr_expr = true ∧
    signatureOf (staticTypeOf c3_addr_expr) =
      [NullabilityKind.Unspecified, NullabilityKind.Nullable] ∧
    [NullabilityKind.Nonnull, NullabilityKind.Nullable] ≠
      [NullabilityKind.Unspecified, NullabilityKind.Nullable] := by
  decide

/-! ### Claim C4 -/

/-- The inner left instantiation of the nested AssertNullability case,
part_000 lines 282-302. -/
def c4_inner_left : CType := s2 ptrU ptrNb

/-- The inner right instantiation of the nested AssertNullability case,
part_000 lines 282-302: itself an instantiation of two
instantiations. -/
def c4_inner_right : CType := s2 (s2 ptrNb ptrNN) (s2 ptrNb ptrNb)

/-- The three-level nested instantiation of part_000 lines 282-302. -/
def c4_nested3 : CType := s2 c4_inner_left c4_inner_right

/-- Claim C4, confirmed.  The signature of a generic instantiation is
the concatenation of the signatures of its type arguments in declared
left-to-right order, non-type arguments contribute nothing, and at the
three-level nested instantiation of part_000 lines 282-302 the
signature equals the concatenation of the two inner signatures, with
the expected six entries. -/
theorem claim_C4 :
    (∀ (name : String) (ts : List CType),
      signatureOf (CType.generic name (targsOfTypes ts)) =
        (ts.map signatureOf).flatten) ∧
    (∀ (n : Int) (rest : TArgs),
      sigArgs (TArgs.consValue n rest) = sigArgs rest) ∧
    signatureOf c4_nested3 =
      signatureOf c4_inner_left ++ signatureOf c4_inner_right ∧
    signatureOf c4_nested3 =
      [NullabilityKind.Unspecified, NullabilityKind.Nullable,
       NullabilityKind.Nullable, NullabilityKind.Nonnull,
       NullabilityKind.Nullable, NullabilityKind.Nullable] := by
  refine ⟨?_, fun n rest => rfl, by decide, by decide⟩
  intro name ts
  simp [signatureOf, sigArgs_targsOfTypes]

/-! ### Claim C5 -/

/-- The instantiation of part_000 lines 305-334: Struct2Arg applied to
two concrete structs whose members are pointers. -/
def c5_struct2arg_concrete : CType :=
  s2
    (CType.concrete ("StructUnknownNullable")
      (Fields.cons ("unknown") ptrU
        (Fields.cons ("nullable") ptrNb Fields.nil)))
    (CType.concrete ("StructNullableNonnull")
      (Fields.cons ("nullable") ptrNb
        (Fields.cons ("nonnull") ptrNN Fields.nil)))

/-- Claim C5, confirmed.  A concrete class type has the empty
signature whatever pointer members it has, a generic instantiated only
with concrete class arguments also has the empty signature, and the
concrete Struct2Arg instantiation of part_000 lines 305-334 (whose
empty assertNullability list passes in the test) has the empty
signature. -/
theorem claim_C5 :
    (∀ (name : String) (fields : Fields),
      signatureOf (CType.concrete name fields) = []) ∧
    (∀ (gname : String) (ss : List (String × Fields)),
      signatureOf (CType.generic gname
        (targsOfTypes (ss.map fun s => CType.concrete s.1 s.2))) = []) ∧
    signatureOf c5_struct2arg_concrete = [] := by
  refine ⟨fun name fields => rfl, ?_, by decide⟩
  intro gname ss
  simp only [signatureOf, sigArgs_targsOfTypes]
  induction ss with
  | nil => rfl
  | cons s ss ih => simp [signatureOf, ih]

/-! ### Properties of the error set -/

theorem mem_setInsert (x msg : String) (l : List String) :
    x ∈ setInsert l msg ↔ x = msg ∨ x ∈ l := by
  induction l with
  | nil => simp [setInsert]
  | cons e rest ih =>
      simp only [setInsert]
      split
      · simp
      · simp only [List.mem_cons, ih]
        tauto

theorem mem_setInsert_self (l : List String) (msg : String) :
    msg ∈ setInsert l msg :=
  (mem_setInsert msg msg l).mpr (Or.inl rfl)

theorem mem_setInsert_of_mem {x : String} {l : List String} (msg : String)
    (h : x ∈ l) : x ∈ setInsert l msg :=
  (mem_setInsert x msg l).mpr (Or.inr h)

theorem add_error_ok {errors : List String} {msg : String}
    {errors2 : List String} (h : add_error errors msg = Except.ok errors2) :
    errors2 = setInsert errors msg ∧ msg ∉ errors := by
  unfold add_error at h
  split at h
  · cases h
  · cases h
    exact ⟨rfl, by assumption⟩

/-! ### Claim C9 -/

/-- Claim C9, confirmed.  Recording a message already present in the
error set makes add_error fail the CRUBIT_CHECK (modelled as
Except.error) instead of silently dropping the duplicate, and under the
precondition that all messages recorded for one declaration are
distinct, folding add_error over them never fires the check and the
final set holds exactly those messages. -/
theorem claim_C9 :
    (∀ (errors : List String) (msg : String), msg ∈ errors →
      add_error errors msg =
        Except.error ("CRUBIT_CHECK failed: Duplicated error message")) ∧
    (∀ msgs : List String, msgs.Nodup →
      ∃ final, List.foldlM add_error [] msgs = Except.ok final ∧
        ∀ x, x ∈ final ↔ x ∈ msgs) := by
  constructor
  · intro errors msg h
    unfold add_error
    rw [if_pos h]
  · have main : ∀ (msgs cur : List String), msgs.Nodup →
        (∀ m ∈ msgs, m ∉ cur) →
        ∃ final, List.foldlM add_error cur msgs = Except.ok final ∧
          ∀ x, x ∈ final ↔ x ∈ cur ∨ x ∈ msgs := by
      intro msgs
      induction msgs with
      | nil =>
          intro cur _ _
          exact ⟨cur, rfl, by simp⟩
      | cons m ms ih =>
          intro cur hnd hfresh
          rw [List.nodup_cons] at hnd
          have hmcur : m ∉ cur := hfresh m (by simp)
          have hstep : add_error cur m = Except.ok (setInsert cur m) := by
            unfold add_error
            rw [if_neg hmcur]
          have hfresh2 : ∀ x ∈ ms, x ∉ setInsert cur m := by
            intro x hx
            rw [mem_setInsert]
            push_neg
            exact ⟨fun hxm => hnd.1 (hxm ▸ hx),
                   hfresh x (List.mem_cons_of_mem m hx)⟩
          obtain ⟨final, hfold, hmem⟩ := ih (setInsert cur m) hnd.2 hfresh2
          refine ⟨final, ?_, ?_⟩
          · rw [List.foldlM_cons, hstep]
            simpa using hfold
          · intro x
            rw [hmem x, mem_setInsert]
            simp only [List.mem_cons]
            tauto
    intro msgs hnd
    obtain ⟨final, hfold, hmem⟩ := main msgs [] hnd (by simp)
    exact ⟨final, hfold, fun x => by simpa using hmem x⟩

/-- Witness for claim C9: a duplicate fires the check, and two distinct
messages fold cleanly. -/
theorem claim_C9_witness :
    add_error [("a")] ("a") =
      Except.error ("CRUBIT_CHECK failed: Duplicated error message") ∧
    ∃ final, List.foldlM add_error [] [("a"), ("b")] = Except.ok final ∧
      ∀ x, x ∈ final ↔ x ∈ [("a"), ("b")] :=
  ⟨claim_C9.1 [("a")] ("a") (by simp),
   claim_C9.2 [("a"), ("b")] (by simp)⟩


/-! ### Accumulation lemmas for Import -/

/-- The parameter loop only grows the error set and records one
Parameter-not-supported message per failed parameter conversion, at the
parameter index offset by the starting index. -/
theorem processParams_ok (ps : List ParamInfo) :
    ∀ (i : Nat) (errors : List String) (acc : List (String × String))
      (errors1 : List String) (params1 : List (String × String)),
    processParams i errors acc ps = Except.ok (errors1, params1) →
    (∀ x ∈ errors, x ∈ errors1) ∧
    (∀ (j : Nat) (p : ParamInfo) (msg : String), ps.get? j = some p →
      p.type_conv = ConvResult.err msg → paramErrMsg (i + j) msg ∈ errors1) := by
  induction ps with
  | nil =>
      intro i errors acc errors1 params1 h
      unfold processParams at h
      cases h
      exact ⟨fun x hx => hx, fun j p msg hj => by simp at hj⟩
  | cons p rest ih =>
      intro i errors acc errors1 params1 h
      unfold processParams at h
      split at h
      · rename_i msg hconv
        split at h
        · cases h
        · rename_i errors2 hadd
          obtain ⟨hset, _⟩ := add_error_ok hadd
          obtain ⟨mono, hall⟩ := ih (i + 1) errors2 acc errors1 params1 h
          have mono2 : ∀ x ∈ errors, x ∈ errors1 := fun x hx =>
            mono x (hset ▸ mem_setInsert_of_mem _ hx)
          refine ⟨mono2, ?_⟩
          intro j q msgq hj hq
          cases j with
          | zero =>
              simp only [List.get?_cons_zero, Option.some.injEq] at hj
              subst hj
              rw [hconv] at hq
              cases hq
              have : paramErrMsg i msg ∈ errors2 :=
                hset ▸ mem_setInsert_self errors (paramErrMsg i msg)
              simpa using mono _ this
          | succ jj =>
              have := hall jj q msgq (by simpa using hj) hq
              have harith : i + 1 + jj = i + (jj + 1) := by omega
              rwa [harith] at this
      · rename_i t hconv
        split at h
        · cases h
        · rename_i errors2 h2
          split at h
          · cases h
          · rename_i n hname
            obtain ⟨mono, hall⟩ :=
              ih (i + 1) errors2 (acc ++ [(t, n)]) errors1 params1 h
            have hgrow : ∀ x ∈ errors, x ∈ errors2 := by
              intro x hx
              split at h2
              · obtain ⟨hset, _⟩ := add_error_ok h2
                exact hset ▸ mem_setInsert_of_mem _ hx
              · cases h2; exact hx
            refine ⟨fun x hx => mono x (hgrow x hx), ?_⟩
            intro j q msgq hj hq
            cases j with
            | zero =>
                simp only [List.get?_cons_zero, Option.some.injEq] at hj
                subst hj
                rw [hconv] at hq
                cases hq
            | succ jj =>
                have := hall jj q msgq (by simpa using hj) hq
                have harith : i + 1 + jj = i + (jj + 1) := by omega
                rwa [harith] at this

/-- The return-type checks only grow the error set and record the
Return-type-not-supported message when the return conversion failed. -/
theorem returnTypeErrors_ok (d : FunctionDecl) (errors errors2 : List String)
    (h : returnTypeErrors d errors = Except.ok errors2) :
    (∀ x ∈ errors, x ∈ errors2) ∧
    (∀ msg, d.return_type_conv = ConvResult.err msg →
      returnErrMsg msg ∈ errors2) := by
  unfold returnTypeErrors at h
  split at h
  · cases h
  · rename_i e1 h1
    have he1 : ∀ x ∈ errors, x ∈ e1 := by
      intro x hx
      split at h1
      · obtain ⟨hset, _⟩ := add_error_ok h1
        exact hset ▸ mem_setInsert_of_mem _ hx
      · cases h1; exact hx
    split at h
    · cases h
    · rename_i e2 h2
      have he2 : ∀ x ∈ e1, x ∈ e2 := by
        intro x hx
        split at h2
        · obtain ⟨hset, _⟩ := add_error_ok h2
          exact hset ▸ mem_setInsert_of_mem _ hx
        · cases h2; exact hx
      split at h
      · rename_i msg hconv
        obtain ⟨hset, _⟩ := add_error_ok h
        refine ⟨fun x hx => hset ▸ mem_setInsert_of_mem _ (he2 x (he1 x hx)), ?_⟩
        intro msg2 hmsg2
        rw [hconv] at hmsg2
        cases hmsg2
        exact hset ▸ mem_setInsert_self e2 (returnErrMsg msg)
      · rename_i t hconv
        cases h
        refine ⟨fun x hx => he2 x (he1 x hx), ?_⟩
        intro msg2 hmsg2
        rw [hconv] at hmsg2
        cases hmsg2

/-- With a public (or absent) method context, a run of the Import body
that fires no CRUBIT_CHECK and hits at least one failed parameter or
return conversion ends in an unsupported item carrying every
parameter-conversion error message and the return-conversion error
message. -/
theorem importBody_unsupported (d : FunctionDecl) (errors0 : List String)
    (params0 : List (String × String)) (r : Option Item)
    (h : importBody d errors0 params0 = Except.ok r)
    (hpub : ∀ m, d.method = some m → m.access = AccessSpecifier.AS_public)
    (hfail : (∃ i p msg, d.params.get? i = some p ∧
                p.type_conv = ConvResult.err msg) ∨
             (∃ msg, d.return_type_conv = ConvResult.err msg)) :
    ∃ errs, r = some (Item.unsupported errs) ∧
      (∀ i p msg, d.params.get? i = some p →
        p.type_conv = ConvResult.err msg → paramErrMsg i msg ∈ errs) ∧
      (∀ msg, d.return_type_conv = ConvResult.err msg →
        returnErrMsg msg ∈ errs) := by
  unfold importBody at h
  split at h
  · cases h
  · split at h
    · cases h
    · rename_i errors1 params1 hp
      split at h
      · cases h
      · rename_i errors2 hr
        obtain ⟨monoP, hallP⟩ :=
          processParams_ok d.params 0 errors0 params0 errors1 params1 hp
        obtain ⟨monoR, hallR⟩ := returnTypeErrors_ok d errors1 errors2 hr
        have hparam : ∀ i p msg, d.params.get? i = some p →
            p.type_conv = ConvResult.err msg → paramErrMsg i msg ∈ errors2 := by
          intro i p msg hi hc
          have := hallP i p msg hi hc
          rw [Nat.zero_add] at this
          exact monoR _ this
        have hne : errors2 ≠ [] := by
          rcases hfail with ⟨i, p, msg, hi, hc⟩ | ⟨msg, hc⟩
          · exact List.ne_nil_of_mem (hparam i p msg hi hc)
          · exact List.ne_nil_of_mem (hallR msg hc)
        split at h
        · cases h
        · have hfin : finishAfterAccess d errors2 params1 = Except.ok r := by
            unfold finishImport at h
            cases hm : d.method with
            | none => rw [hm] at h; exact h
            | some m =>
                rw [hm] at h
                have hacc := hpub m hm
                have h2 : (match m.access with
                    | AccessSpecifier.AS_public =>
                        finishAfterAccess d errors2 params1
                    | _ => Except.ok none) = Except.ok r := h
                rw [hacc] at h2
                exact h2
          unfold finishAfterAccess at hfin
          split at hfin
          · rename_i hemp
            exact absurd (List.isEmpty_iff.mp hemp) hne
          · cases hfin
            exact ⟨errors2, rfl, hparam, hallR⟩

/-- With a non-public method context, a run of the Import body that
fires no CRUBIT_CHECK always ends in nullopt. -/
theorem importBody_nonpublic (d : FunctionDecl) (errors0 : List String)
    (params0 : List (String × String)) (r : Option Item) (m : MethodInfo)
    (h : importBody d errors0 params0 = Except.ok r) (hm : d.method = some m)
    (hacc : m.access ≠ AccessSpecifier.AS_public) : r = none := by
  unfold importBody at h
  split at h
  · cases h
  · split at h
    · cases h
    · rename_i errors1 params1 hp
      split at h
      · cases h
      · rename_i errors2 hr
        split at h
        · cases h
        · unfold finishImport at h
          rw [hm] at h
          have h2 : (match m.access with
              | AccessSpecifier.AS_public =>
                  finishAfterAccess d errors2 params1
              | _ => Except.ok none) = Except.ok r := h
          rcases haccv : m.access
          · exact absurd haccv hacc
          all_goals rw [haccv] at h2
          all_goals exact (Except.ok.inj h2).symm

/-! ### Claim C8 -/

/-- Claim C8, corrected.  For a declaration from the current target,
not deleted, that is a free function or a public method of an
importable parent, whose run fires no CRUBIT_CHECK: if any parameter
type conversion or the return type conversion fails, Import produces an
unsupported item whose error set contains the message of every failed
parameter conversion and of the failed return conversion — so the
errors are accumulated across all parameters and the return type, not
reported fail-fast.  (As stated, for every declaration, the claim fails
on non-public methods, which are dropped entirely even when their
parameter types are unsupported: see the counterexample.) -/
theorem claim_C8 (d : FunctionDecl) (r : Option Item)
    (himp : Import d = Except.ok r)
    (hct : d.is_from_current_target = true)
    (hdel : d.is_deleted = false)
    (hmeth : ∀ m, d.method = some m →
      m.parent_in_type_mapper = true ∧ m.access = AccessSpecifier.AS_public)
    (hfail : (∃ i p msg, d.params.get? i = some p ∧
                p.type_conv = ConvResult.err msg) ∨
             (∃ msg, d.return_type_conv = ConvResult.err msg)) :
    ∃ errs, r = some (Item.unsupported errs) ∧
      (∀ i p msg, d.params.get? i = some p →
        p.type_conv = ConvResult.err msg → paramErrMsg i msg ∈ errs) ∧
      (∀ msg, d.return_type_conv = ConvResult.err msg →
        returnErrMsg msg ∈ errs) := by
  unfold Import at himp
  rw [hct, hdel] at himp
  cases hm : d.method with
  | none =>
      rw [hm] at himp
      refine importBody_unsupported d [] [] r himp ?_ hfail
      intro m2 hm2
      rw [hm] at hm2
      cases hm2
  | some m =>
      obtain ⟨hpar, hacc⟩ := hmeth m hm
      rw [hm] at himp
      have himp2 : (if !m.parent_in_type_mapper then
          Except.ok (some (Item.unsupported [cannotImportParentMsg]))
        else
          match thisParamStep m with
          | Except.error e => Except.error e
          | Except.ok (errors0, params0) => importBody d errors0 params0) =
          Except.ok r := himp
      rw [hpar] at himp2
      cases hts : thisParamStep m with
      | error e =>
          rw [hts] at himp2
          exact Except.noConfusion himp2
      | ok pr =>
          rw [hts] at himp2
          obtain ⟨e0, p0⟩ := pr
          refine importBody_unsupported d e0 p0 r himp2 ?_ hfail
          intro m2 hm2
          rw [hm] at hm2
          cases hm2
          exact hacc

/-- A private method with one unsupported parameter type, otherwise
well formed. -/
def c8_decl : FunctionDecl :=
  { is_from_current_target := true,
    is_deleted := false,
    method := some { parent_in_type_mapper := true, is_instance := false,
                     this_param_type := ConvResult.ok ("S"),
                     access := AccessSpecifier.AS_private },
    lifetimes_ok := false,
    lifetimes_valid_for_decl := true,
    free_lifetimes_named := true,
    params := [{ type_conv := ConvResult.err ("Unsupported type"),
                 type_string := "X", is_record := false,
                 can_pass_in_registers := true, name := some ("x") }],
    return_type_undeduced := false,
    return_is_record := false,
    return_can_pass_in_registers := true,
    return_type_string := "int",
    return_type_conv := ConvResult.ok ("i32"),
    translated_name := some ("f") }

/-- Counterexample to claim C8 as stated: a private method with a
failed parameter type conversion is not imported as an unsupported item
carrying the error; the access check of function.cc lines 148-160 runs
before the error check of line 193 and drops the declaration
entirely. -/
theorem claim_C8_counterexample : Import c8_decl = Except.ok none := rfl

/-- The failing parameter of the witness declaration for claim C8. -/
def c8_param_a : ParamInfo :=
  { type_conv := ConvResult.err ("A"), type_string := "TA",
    is_record := false, can_pass_in_registers := true, name := some ("a") }

/-- A free function with a failed parameter conversion and a failed
return conversion. -/
def c8_witness_decl : FunctionDecl :=
  { is_from_current_target := true,
    is_deleted := false,
    method := none,
    lifetimes_ok := false,
    lifetimes_valid_for_decl := true,
    free_lifetimes_named := true,
    params := [c8_param_a],
    return_type_undeduced := false,
    return_is_record := false,
    return_can_pass_in_registers := true,
    return_type_string := "int",
    return_type_conv := ConvResult.err ("B"),
    translated_name := some ("f") }

/-- Witness for claim C8: at the witness declaration both the parameter
message and the return message end up in one unsupported item. -/
theorem claim_C8_witness :
    ∃ errs, (some (Item.unsupported
        [("Parameter #0 is not supported: A"),
         ("Return type is not supported: B")]) : Option Item) =
        some (Item.unsupported errs) ∧
      (∀ i p msg, c8_witness_decl.params.get? i = some p →
        p.type_conv = ConvResult.err msg → paramErrMsg i msg ∈ errs) ∧
      (∀ msg, c8_witness_decl.return_type_conv = ConvResult.err msg →
        returnErrMsg msg ∈ errs) :=
  claim_C8 c8_witness_decl
    (some (Item.unsupported
      [("Parameter #0 is not supported: A"),
       ("Return type is not supported: B")]))
    (by rfl) rfl rfl
    (by intro m hm; cases hm)
    (Or.inl ⟨0, c8_param_a, ("A"), rfl, rfl⟩)

/-! ### Claim C10 -/

/-- Claim C10, corrected.  A method declaration whose access specifier
is not public and whose parent record is contained in the type mapper
is dropped entirely by Import (nullopt, no item of any kind), whatever
its parameters, return type or name; but a non-public method whose
parent is not importable still produces an unsupported item, because
the parent check of function.cc lines 32-35 runs before the access
check of lines 148-160: see the counterexample. -/
theorem claim_C10 (d : FunctionDecl) (m : MethodInfo) (r : Option Item)
    (himp : Import d = Except.ok r) (hm : d.method = some m)
    (hacc : m.access ≠ AccessSpecifier.AS_public)
    (hparent : m.parent_in_type_mapper = true) : r = none := by
  unfold Import at himp
  cases hb1 : d.is_from_current_target with
  | false =>
      rw [hb1] at himp
      exact (Except.ok.inj himp).symm
  | true =>
      rw [hb1] at himp
      cases hb2 : d.is_deleted with
      | true =>
          rw [hb2] at himp
          exact (Except.ok.inj himp).symm
      | false =>
          rw [hb2] at himp
          rw [hm] at himp
          have himp2 : (if !m.parent_in_type_mapper then
              Except.ok (some (Item.unsupported [cannotImportParentMsg]))
            else
              match thisParamStep m with
              | Except.error e => Except.error e
              | Except.ok (errors0, params0) => importBody d errors0 params0) =
              Except.ok r := himp
          rw [hparent] at himp2
          cases hts : thisParamStep m with
          | error e =>
              rw [hts] at himp2
              exact Except.noConfusion himp2
          | ok pr =>
              rw [hts] at himp2
              obtain ⟨e0, p0⟩ := pr
              exact importBody_nonpublic d e0 p0 r m himp2 hm hacc

/-- A private method whose parent record is not in the type mapper. -/
def c10_decl : FunctionDecl :=
  { is_from_current_target := true,
    is_deleted := false,
    method := some { parent_in_type_mapper := false, is_instance := false,
                     this_param_type := ConvResult.ok ("S"),
                     access := AccessSpecifier.AS_private },
    lifetimes_ok := false,
    lifetimes_valid_for_decl := true,
    free_lifetimes_named := true,
    params := [],
    return_type_undeduced := false,
    return_is_record := false,
    return_can_pass_in_registers := true,
    return_type_string := "int",
    return_type_conv := ConvResult.ok ("i32"),
    translated_name := some ("f") }

/-- Counterexample to claim C10 as stated: a private method whose
parent could not be imported does produce an unsupported item, not
nullopt. -/
theorem claim_C10_counterexample :
    Import c10_decl =
      Except.ok (some (Item.unsupported [cannotImportParentMsg])) := rfl

/-- The method context of the witness declaration for claim C10. -/
def c10_method : MethodInfo :=
  { parent_in_type_mapper := true, is_instance := false,
    this_param_type := ConvResult.ok ("S"),
    access := AccessSpecifier.AS_private }

/-- A private method with importable parent and fully supported
types. -/
def c10_witness_decl : FunctionDecl :=
  { is_from_current_target := true,
    is_deleted := false,
    method := some c10_method,
    lifetimes_ok := false,
    lifetimes_valid_for_decl := true,
    free_lifetimes_named := true,
    params := [],
    return_type_undeduced := false,
    return_is_record := false,
    return_can_pass_in_registers := true,
    return_type_string := "int",
    return_type_conv := ConvResult.ok ("i32"),
    translated_name := some ("f") }

/-- Witness for claim C10: the witness declaration is dropped
entirely. -/
theorem claim_C10_witness :
    ∃ r, Import c10_witness_decl = Except.ok r ∧ r = none :=
  ⟨none, rfl,
   claim_C10 c10_witness_decl c10_method none rfl rfl (by decide) rfl⟩
